import Mathlib

/-!
Verification of the FaceBookProfileDownloader engine (`main.py`) against its
natural-language specification.  The Python code is shallowly embedded:

* the scroll-pager loop of `descargar` (lines 329-500 and 676-820) becomes a
  step function `scrollStep` on an explicit `ScrollState`, driven by an input
  trace of sampled document heights and new-link discoveries;
* the link-harvesting loops (lines 415-462) become a fold `harvest` over the
  anchors returned by the selector strategies;
* the download blocks of `process_photo_links` (lines 247-300) and
  `process_video_links` (lines 631-652) become the functions `downloadPhoto`
  and `downloadVideo` over an explicit description of what the HTTP layer did;
* `get_photo_id_from_url` and `sanitize_filename` (lines 24-25, 1134-1151)
  are embedded over `List Char`, together with the fragment of
  `urllib.parse.urlparse` / `parse_qs` they rely on;
* `safe_goto` (lines 939-972) becomes an interpreter `safe_goto` that records
  how many times the page-load primitive `page.goto` was invoked.
-/

namespace FBDL

/-! ## Scroll pager (`descargar`, lines 329-386 / 466-471 and 676-723) -/

/-- The mutable loop state of one category pass: `last_height`, `scroll_tries`
and `no_new_content_count` in `descargar`. -/
structure ScrollState where
  lastHeight : Nat
  scrollTries : Nat
  noNewContentCount : Nat
deriving DecidableEq, Repr

/-- `last_height = 0`, `scroll_tries = 0`, `no_new_content_count = 0`
(lines 109-113 / 517-521). -/
def initialScroll : ScrollState := ⟨0, 0, 0⟩

/-- `max_scroll_tries = 30` (lines 111 / 519). -/
def maxScrollTries : Nat := 30

/-- `max_no_new_content = 8` (lines 113 / 521). -/
def maxNoNewContent : Nat := 8

/-- One iteration of the scroll loop body, as far as the counters are
concerned: the height comparison of lines 380-386 (`scroll_tries` is
incremented when the sampled height equals `last_height` and reset to 0
otherwise, and `last_height` is overwritten with the sample) and the
new-links branch of lines 466-471 (`no_new_content_count` is reset to 0 when
the harvested batch is nonempty and incremented otherwise). -/
def scrollStep (s : ScrollState) (newHeight : Nat) (newLinksFound : Bool) : ScrollState :=
  { lastHeight := newHeight
    scrollTries := if newHeight = s.lastHeight then s.scrollTries + 1 else 0
    noNewContentCount := if newLinksFound then 0 else s.noNewContentCount + 1 }

/-- The guard of the `while` loop (lines 329 / 676):
`scroll_tries < max_scroll_tries and no_new_content_count < max_no_new_content`. -/
def contLoop (s : ScrollState) : Bool :=
  decide (s.scrollTries < maxScrollTries) && decide (s.noNewContentCount < maxNoNewContent)

/-- A pass is driven by an input trace assigning to each iteration the height
sampled after scrolling (`document.documentElement.scrollHeight`, line 377)
and whether the harvest of that iteration found any new links (line 466).
`stateAt tr n` is the loop state after `n` executions of the body. -/
def stateAt (tr : Nat → Nat × Bool) : Nat → ScrollState
  | 0 => initialScroll
  | n + 1 => scrollStep (stateAt tr (n)) (tr (n)).1 (tr (n)).2

/-- The pass halts within `N` iterations of the body: the loop guard fails at
some state reached after at most `N` iterations. -/
def haltsWithin (tr : Nat → Nat × Bool) (N : Nat) : Prop :=
  ∃ n, n ≤ N ∧ contLoop (stateAt tr n) = false

/-- A trace whose height sample is constantly 5 and that finds new links at
every iteration: the document height never changes, yet the very first
comparison against the initial `last_height = 0` counts as growth. -/
def trConstFive : Nat → Nat × Bool := fun _ => (5, true)

/-- A trace whose first iteration samples height 0 (no growth, streak rises
to 1) and whose second samples height 7 (growth, streak resets to 0). -/
def trGrowAtTwo : Nat → Nat × Bool := fun n => if n = 0 then (0, false) else (7, false)

/-! ## Retrieval strategy chain for photos (`process_photo_links`, lines 247-300) -/

/-- What `page.request.get(high_res_src)` produced: status, the
`content-type` header (the `""` default of `headers.get` already applied) and
the body bytes. -/
structure HttpResponse where
  status : Nat
  contentType : String
  body : List Nat
deriving DecidableEq, Repr

/-- The outcome of the primary strategy call `page.request.get` (line 255):
either it returned a response, or the `try` block raised an exception. -/
inductive PrimaryResult where
  | response (r : HttpResponse)
  | exn
deriving DecidableEq, Repr

/-- The outcome of the in-page `fetch` fallback `page.evaluate` (line 280):
either the byte array it returned, or an exception. -/
inductive FallbackResult where
  | bytes (b : List Nat)
  | exn
deriving DecidableEq, Repr

/-- `str.startswith(pat)`, computed on the character lists so that it
evaluates inside the kernel. -/
def strStartsWith (s pat : String) : Bool :=
  pat.toList.isPrefixOf s.toList

/-- The Python truthiness-and-length test `img_bytes and len(img_bytes) > 1000`
(lines 260 and 288). -/
def validBytes (b : List Nat) : Bool :=
  !b.isEmpty && decide (b.length > 1000)

/-- The observable outcome of one run of the photo download block. -/
structure DownloadOutcome where
  fileWritten : Bool
  imagenesInc : Nat
  erroresInc : Nat
  fallbackCalls : Nat
deriving DecidableEq, Repr

/-- The photo download block of `process_photo_links` (lines 247-300).  If the
destination exists the whole block is skipped (line 247).  Otherwise the
primary strategy `page.request.get` is tried; when it returns a response, the
body is written and `total_imagenes` incremented only under the checks
`status == 200` (line 256), `content_type.startswith("image/")` (line 258) and
`img_bytes and len(img_bytes) > 1000` (line 260), and a response failing any
of those checks just logs an error — no fallback and no `errores` increment.
Only when the `try` block raises (`except` at line 275) is the in-page fetch
fallback evaluated, its result written under the length check of line 288,
and `errores += 1` executed unconditionally at line 300. -/
def downloadPhoto (destExists : Bool) (p : PrimaryResult) (fb : FallbackResult) :
    DownloadOutcome :=
  if destExists then ⟨false, 0, 0, 0⟩
  else
    match p with
    | .response r =>
      if r.status = 200 then
        if strStartsWith r.contentType "image/" then
          if validBytes r.body then ⟨true, 1, 0, 0⟩
          else ⟨false, 0, 0, 0⟩
        else ⟨false, 0, 0, 0⟩
      else ⟨false, 0, 0, 0⟩
    | .exn =>
      match fb with
      | .bytes b => if validBytes b then ⟨true, 1, 1, 1⟩ else ⟨false, 0, 1, 1⟩
      | .exn => ⟨false, 0, 1, 1⟩

/-! ## Video download (`process_video_links`, lines 631-652) -/

/-- The outcome of the in-page `fetch` used for videos (line 639). -/
inductive VideoFetch where
  | bytes (b : List Nat)
  | exn
deriving DecidableEq, Repr

/-- The observable outcome of one run of the video download block. -/
structure VideoOutcome where
  fileWritten : Bool
  videosInc : Nat
  erroresInc : Nat
deriving DecidableEq, Repr

/-- The video download block (lines 631-652): if the destination does not
exist, the in-page fetch is evaluated and whatever byte array it returns is
written to the destination and `total_videos` incremented (lines 646-648) —
there is no status, content-type or length check on this path.  Only a raised
exception increments `errores` (line 652). -/
def downloadVideo (destExists : Bool) (f : VideoFetch) : VideoOutcome :=
  if destExists then ⟨false, 0, 0⟩
  else
    match f with
    | .bytes _ => ⟨true, 1, 0⟩
    | .exn => ⟨false, 0, 1⟩

/-! ## Per-link processing (`process_photo_links` lines 120-317,
`process_video_links` lines 523-663) -/

/-- The src-attribute truthiness-and-scheme test of lines 234 and 625:
`src and (src.startswith('http') or src.startswith('//'))`. -/
def validSrc (src : String) : Bool :=
  !src.toList.isEmpty && (strStartsWith src "http" || strStartsWith src "//")

/-- Environment describing what the page did while one photo link was
processed: whether `safe_goto` succeeded; `media = none` when the selector
chain of lines 203-226 exhausted without a match, and `media = some a` when an
element was found with `get_attribute('src')` returning `a`; and the
behaviour of the HTTP layer for the download block. -/
structure PhotoEnv where
  navOk : Bool
  media : Option (Option String)
  destExists : Bool
  primary : PrimaryResult
  fallback : FallbackResult

/-- The observable outcome of processing one candidate link. -/
structure LinkOutcome where
  sidecarWritten : Bool
  fileWritten : Bool
  mediaInc : Nat
  erroresInc : Nat
deriving DecidableEq, Repr

/-- One iteration of the loop body of `process_photo_links` for a link not
yet processed.  Navigation failure skips the link (line 136-138).  When no
image element is found, `errores` is incremented and no sidecar is written
(lines 313-317).  When an element is found, the download block runs only for
a valid `src` (lines 234-300) and the metadata sidecar is written in every
case (lines 306-312). -/
def processPhotoLink (e : PhotoEnv) : LinkOutcome :=
  if !e.navOk then ⟨false, false, 0, 0⟩
  else
    match e.media with
    | none => ⟨false, false, 0, 1⟩
    | some attr =>
      let d : DownloadOutcome :=
        match attr with
        | some src =>
          if validSrc src then downloadPhoto e.destExists e.primary e.fallback
          else ⟨false, 0, 0, 0⟩
        | none => ⟨false, 0, 0, 0⟩
      ⟨true, d.fileWritten, d.imagenesInc, d.erroresInc⟩

/-- Environment for one video link; `media = some a` means the selector chain
of lines 579-612 (including the iframe fallback) found a video element whose
resolved src (after the `source`-tag fallback of lines 617-622) is `a`. -/
structure VideoEnv where
  navOk : Bool
  media : Option (Option String)
  destExists : Bool
  fetch : VideoFetch

/-- One iteration of the loop body of `process_video_links` for a link not
yet processed (lines 534-663): same sidecar discipline as for photos — the
metadata file is written exactly when a video element was found (line 658),
and `errores` is incremented with no sidecar when none was (lines 660-663). -/
def processVideoLink (e : VideoEnv) : LinkOutcome :=
  if !e.navOk then ⟨false, false, 0, 0⟩
  else
    match e.media with
    | none => ⟨false, false, 0, 1⟩
    | some attr =>
      let d : VideoOutcome :=
        match attr with
        | some src =>
          if validSrc src then downloadVideo e.destExists e.fetch
          else ⟨false, 0, 0⟩
        | none => ⟨false, 0, 0⟩
      ⟨true, d.fileWritten, d.videosInc, d.erroresInc⟩

/-! ## Link harvester (`descargar`, lines 415-462 and 743-781) -/

/-- The target-domain test of lines 426 and 458:
`href and href.startswith('https://www.facebook.com/')` (a `None` or empty
href is falsy and skipped). -/
def fbLink (href : String) : Bool :=
  !href.toList.isEmpty && strStartsWith href "https://www.facebook.com/"

/-- Processing of one anchor inside the selector loops (lines 423-434): the
accumulator is the pair (`new_links`, `photo_links`); an href that is
non-null, matches the domain and is not yet in the seen-set is added to
both. -/
def harvestAnchor (acc : List String × List String) (href : Option String) :
    List String × List String :=
  match href with
  | none => acc
  | some h =>
    if fbLink h then
      if h ∈ acc.2 then acc else (h :: acc.1, h :: acc.2)
    else acc

/-- The full harvest of one scroll iteration (lines 415-462): the four
selector strategies and the image-ancestor pass each contribute a list of
optional hrefs, all of which are run through `harvestAnchor` starting from an
empty `new_links` and the session seen-set.  Returns the incremental set and
the updated seen-set. -/
def harvest (dom : List (List (Option String))) (seen : List String) :
    List String × List String :=
  dom.foldl (fun acc anchors => anchors.foldl harvestAnchor acc) ([], seen)

/-! ## One capped category pass (`descargar`, lines 329-500) -/

/-- The dedup test at the head of the processing loop (lines 126-130): a link
already in `processed_photos` is skipped, any other link is added and
processed. -/
def addProcessed (processed : List String) (u : String) : List String :=
  if u ∈ processed then processed else u :: processed

/-- The whole `for photo_url in new_links` loop of `process_photo_links`
(lines 125-327): every link of the harvested batch is handed to the per-link
processing; no cap is consulted anywhere in this loop. -/
def passStep (processed : List String) (batch : List String) : List String :=
  batch.foldl addProcessed processed

/-- One category pass with the item cap, driven by a finite trace of
iterations, each carrying the sampled height and the harvested batch of new
links.  The loop guard is checked first (line 329); the batch is processed in
full when nonempty (lines 466-468); the counters are updated
(lines 380-386 / 469-471); and only then is the cap consulted
(lines 497-500): `if max_fotos and len(processed_photos) >= max_fotos:
break`. -/
def runPhotoPass (maxFotos : Nat) :
    List (Nat × List String) → ScrollState → List String → List String
  | [], _, processed => processed
  | (h, batch) :: rest, s, processed =>
    if contLoop s then
      let processed2 := if batch.isEmpty then processed else passStep processed batch
      let s2 := scrollStep s h (!batch.isEmpty)
      if maxFotos ≠ 0 ∧ processed2.length ≥ maxFotos then processed2
      else runPhotoPass maxFotos rest s2 processed2
    else processed

/-! ## Resource identifier assigner (`sanitize_filename` lines 24-25,
`get_photo_id_from_url` lines 1134-1151) -/

/-- The regex class `\w` of `re.sub(r'[^\w\-_\. ]', '_', name)`, modelled on
the ASCII range the ids actually traverse: letters, digits and underscore. -/
def isWordChar (c : Char) : Bool := c.isAlphanum || c = '_'

/-- A character the sanitizer keeps: the class `[\w\-_\. ]`. -/
def keepChar (c : Char) : Bool := isWordChar c || c = '-' || c = '.' || c = ' '

/-- `sanitize_filename` (lines 24-25): every character outside `[\w\-_\. ]`
is replaced by an underscore. -/
def sanitize_filename (s : List Char) : List Char :=
  s.map (fun c => if keepChar c then c else '_')

/-- The query component as `urllib.parse.urlparse` extracts it: everything
strictly between the first `?` and the fragment delimiter `#` (empty when
there is no `?`). -/
def dropThroughQuestion : List Char → List Char
  | [] => []
  | c :: cs => if c = '?' then cs else dropThroughQuestion cs

/-- Query string of a URL (see `dropThroughQuestion`). -/
def queryOf (url : List Char) : List Char :=
  dropThroughQuestion (url.takeWhile (fun c => c != '#'))

/-- Splitting a character list at every occurrence of `c`
(`str.split(sep)` with a one-character separator). -/
def splitOnChar (c : Char) : List Char → List (List Char)
  | [] => [[]]
  | x :: xs =>
    match splitOnChar c xs with
    | [] => [[]]
    | h :: t => if x = c then [] :: h :: t else (x :: h) :: t

/-- `str.split('=', 1)` restricted to the information `parse_qsl` uses:
`none` when the chunk contains no `=`, otherwise the parts before and after
the first `=`. -/
def splitAtEq : List Char → Option (List Char × List Char)
  | [] => none
  | x :: xs =>
    if x = '=' then some ([], xs)
    else (splitAtEq xs).map (fun p => (x :: p.1, p.2))

/-- Value of a hexadecimal digit, as `urllib.parse.unquote` accepts them. -/
def hexVal (c : Char) : Option Nat :=
  if c.isDigit then some (c.toNat - 48)
  else if 'a' ≤ c ∧ c ≤ 'f' then some (c.toNat - 87)
  else if 'A' ≤ c ∧ c ≤ 'F' then some (c.toNat - 55)
  else none

/-- `urllib.parse.unquote_plus` on the single-byte range: `+` becomes a
space, a valid `%XX` escape becomes the escaped character, an invalid `%` is
kept literally. -/
def unquotePlus : List Char → List Char
  | [] => []
  | '+' :: rest => ' ' :: unquotePlus rest
  | '%' :: a :: b :: rest =>
    match hexVal a, hexVal b with
    | some hi, some lo => Char.ofNat (16 * hi + lo) :: unquotePlus rest
    | _, _ => '%' :: unquotePlus (a :: b :: rest)
  | c :: rest => c :: unquotePlus rest

/-- `urllib.parse.parse_qsl` with its default arguments, as `parse_qs`
invokes it: chunks are split on `&`; an empty chunk, a chunk without `=` and
a chunk with an empty value are all skipped (`keep_blank_values=False`);
names and values are unquoted. -/
def qsPairs (query : List Char) : List (List Char × List Char) :=
  (splitOnChar '&' query).filterMap (fun chunk =>
    if chunk.isEmpty then none
    else
      match splitAtEq chunk with
      | none => none
      | some (n, v) =>
        if v.isEmpty then none else some (unquotePlus n, unquotePlus v))

/-- `parse_qs(...)[key][0]` through `.get(key, [default])[0]`: the first
value bound to `key`, if any. -/
def firstParam (pairs : List (List Char × List Char)) (key : List Char) :
    Option (List Char) :=
  (pairs.find? (fun p => p.1 == key)).map (fun p => p.2)

/-- `query_params.get(key, ['unknown'])[0]` of lines 1139-1140. -/
def photoParam (url : List Char) (key : List Char) : List Char :=
  (firstParam (qsPairs (queryOf url)) key).getD ("unknown".toList)

/-- `get_photo_id_from_url` (lines 1134-1144, the non-raising path, which is
the only one reachable for string inputs): extract `fbid` and `set` from the
query string, compose `photo_{fbid}_{set}` and sanitize the result. -/
def get_photo_id_from_url (url : List Char) : List Char :=
  sanitize_filename
    ("photo_".toList ++ photoParam url ("fbid".toList) ++
      "_".toList ++ photoParam url ("set".toList))

/-! ## Navigation guard (`safe_goto`, lines 939-972) -/

/-- What `page.goto(url, timeout=30000)` would do on a given attempt. -/
inductive GotoBehavior where
  | ok
  | timeoutE
  | raises
deriving DecidableEq, Repr

/-- The exceptions distinguished by the handlers of `safe_goto`. -/
inductive PyExn where
  | attributeError
  | timeoutError
  | otherError
deriving DecidableEq, Repr

/-- One execution of the `try` block of `safe_goto` (lines 942-967):
`returned` is the value the attempt returns (if any), `gotoCalls` counts the
invocations of `page.goto`, and `raised` is the exception the handlers
caught (if any). -/
structure AttemptResult where
  returned : Option Bool
  gotoCalls : Nat
  raised : Option PyExn
deriving DecidableEq, Repr

/-- One retry iteration.  The first statement of the `try` block is the
unguarded `logger.info(...)` (line 943): with `logger = None` it raises
`AttributeError` before `page.goto` is reached, and the generic handler of
line 963 catches it.  With a logger present, `page.goto` runs; both branches
of the post-navigation URL check (lines 951-956) return `True`, so any
completed navigation yields `True`; a timeout or other error is caught and
the loop continues. -/
def attemptGoto (logger : Option Unit) (b : GotoBehavior) : AttemptResult :=
  match logger with
  | none => ⟨none, 0, some .attributeError⟩
  | some _ =>
    match b with
    | .ok => ⟨some true, 1, none⟩
    | .timeoutE => ⟨none, 1, some .timeoutError⟩
    | .raises => ⟨none, 1, some .otherError⟩

/-- Result of `safe_goto`: the returned boolean and the total number of
`page.goto` invocations. -/
structure NavOutcome where
  result : Bool
  gotoCalls : Nat
deriving DecidableEq, Repr

/-- `max_retries=3` (line 939). -/
def max_retries : Nat := 3

/-- The `for attempt in range(1, max_retries+1)` loop (lines 941-967) plus
the final `return False` (line 972), with the attempts' behaviour supplied by
`bs`. -/
def safeGotoLoop (logger : Option Unit) (bs : Nat → GotoBehavior) :
    Nat → Nat → Nat → NavOutcome
  | 0, _, calls => ⟨false, calls⟩
  | k + 1, i, calls =>
    let a := attemptGoto logger (bs i)
    match a.returned with
    | some r => ⟨r, calls + a.gotoCalls⟩
    | none => safeGotoLoop logger bs k (i + 1) (calls + a.gotoCalls)

/-- `safe_goto(page, url, logger, ...)` with the default `max_retries=3`. -/
def safe_goto (logger : Option Unit) (bs : Nat → GotoBehavior) : NavOutcome :=
  safeGotoLoop logger bs max_retries 0 0

/-- The call the `info` command makes (line 908): `safe_goto(page, perfil_url)`,
leaving `logger` at its default `None` (line 939). -/
def safeGotoInfoCall (bs : Nat → GotoBehavior) : NavOutcome :=
  safe_goto none bs

/-! ## Auxiliary notions and concrete inputs used by the theorems below -/

/-- Invariant tying the harvester accumulator (`new_links`, `photo_links`) to
the seen-set the call started from: the incremental list has no duplicates,
the seen-set is exactly the original seen-set plus the incremental list, and
every harvested link matches the target domain and is genuinely new. -/
def HInv (seen0 : List String) (acc : List String × List String) : Prop :=
  acc.1.Nodup ∧
  (∀ u : String, u ∈ acc.2 ↔ u ∈ acc.1 ∨ u ∈ seen0) ∧
  (∀ u ∈ acc.1, fbLink u = true ∧ u ∉ seen0)

/-- Photo post URL whose `set` parameter contains `!`, a character the
sanitizer replaces. -/
def urlBangSet : List Char :=
  "https://www.facebook.com/photo/?fbid=123&set=a!b".toList

/-- Photo post URL with the same `fbid` but `set` containing `(`, a different
character the sanitizer also replaces. -/
def urlParenSet : List Char :=
  "https://www.facebook.com/photo/?fbid=123&set=a(b".toList

/-- Photo post URL with `set=aa`, entirely sanitizer-preserved. -/
def urlSetAA : List Char :=
  "https://www.facebook.com/photo/?fbid=9&set=aa".toList

/-- Photo post URL with the same `fbid` and `set=bb`. -/
def urlSetBB : List Char :=
  "https://www.facebook.com/photo/?fbid=9&set=bb".toList

set_option maxRecDepth 100000

/-!
## Theorems

### C1 — when the secondary strategy runs
-/

/-- C1, counterexample.  A primary response with status 404 (and a large
image body, so that only the status is at fault), and a primary response
with status 200 but a 500-byte body, both leave the download block without
ever invoking the in-page fetch fallback: the claim that the secondary
strategy "is invoked exactly once" on such validity failures is false —
the fallback of lines 279-299 is reached only from the `except` handler. -/
theorem C1_counterexample :
    (downloadPhoto false
      (.response ⟨404, "image/jpeg", List.replicate 2000 0⟩)
      (.bytes (List.replicate 2000 0))).fallbackCalls = 0 ∧
    (downloadPhoto false
      (.response ⟨200, "image/jpeg", List.replicate 500 0⟩)
      (.bytes (List.replicate 2000 0))).fallbackCalls = 0 := by
  constructor <;> decide

/-- C1, amended: the secondary in-page fetch strategy is never invoked when
the primary strategy returns a response — however invalid (404 status,
wrong content-type, undersized body) — and is invoked exactly once precisely
when the primary `page.request.get` raises an exception. -/
theorem C1_fallback_only_on_exception :
    (∀ (r : HttpResponse) (fb : FallbackResult),
        (downloadPhoto false (.response r) fb).fallbackCalls = 0) ∧
    (∀ fb : FallbackResult, (downloadPhoto false .exn fb).fallbackCalls = 1) := by
  constructor
  · intro r fb
    simp only [downloadPhoto]
    split_ifs <;> rfl
  · intro fb
    cases fb <;> simp only [downloadPhoto] <;> split_ifs <;> simp_all

/-- C1, instantiated: a failing 500-status response triggers no fallback; a
raising primary triggers exactly one. -/
theorem C1_witness :
    (downloadPhoto false (.response ⟨500, "text/html", []⟩) .exn).fallbackCalls = 0 ∧
    (downloadPhoto false .exn .exn).fallbackCalls = 1 :=
  ⟨C1_fallback_only_on_exception.1 ⟨500, "text/html", []⟩ .exn,
   C1_fallback_only_on_exception.2 .exn⟩

/-!
### C2 — validity checks before persisting
-/

/-- C2, counterexample.  A video fetch returning an empty byte array — 0
bytes, far below the 1000-byte threshold, with no status or content-type
information at all — is nevertheless written to the destination file and
`total_videos` is incremented (lines 646-648): the claim that every media
payload is persisted only under the status/content-type/length checks is
false for the video path. -/
theorem C2_counterexample :
    (downloadVideo false (.bytes [])).fileWritten = true ∧
    (downloadVideo false (.bytes [])).videosInc = 1 := by
  decide

/-- C2, amended: the full validity check (status 200, `image/` content-type,
body longer than 1000 bytes) guards exactly the photo primary strategy; the
photo fallback checks only that the returned byte array is nonempty and
longer than 1000 bytes; and the video download persists whatever byte array
the in-page fetch returns, with no check whatsoever.  In each path the
downloaded counter is incremented exactly when the file is written. -/
theorem C2_validity_by_path :
    (∀ (r : HttpResponse) (fb : FallbackResult),
        (downloadPhoto false (.response r) fb).fileWritten = true ↔
          r.status = 200 ∧ strStartsWith r.contentType "image/" = true ∧
            validBytes r.body = true) ∧
    (∀ b : List Nat,
        (downloadPhoto false .exn (.bytes b)).fileWritten = true ↔
          validBytes b = true) ∧
    (∀ (destExists : Bool) (p : PrimaryResult) (fb : FallbackResult),
        (downloadPhoto destExists p fb).imagenesInc =
          if (downloadPhoto destExists p fb).fileWritten then 1 else 0) ∧
    (∀ b : List Nat,
        (downloadVideo false (.bytes b)).fileWritten = true ∧
          (downloadVideo false (.bytes b)).videosInc = 1) := by
  refine ⟨?_, ?_, ?_, ?_⟩
  · intro r fb
    simp only [downloadPhoto]
    split_ifs <;> simp_all
  · intro b
    simp only [downloadPhoto]
    split_ifs <;> simp_all
  · intro destExists p fb
    cases destExists <;> cases p <;> try cases fb
    all_goals (simp only [downloadPhoto]; split_ifs <;> simp_all)
  · intro b
    exact ⟨rfl, rfl⟩

/-- C2, instantiated: a 1500-byte `image/png` response with status 200 is
persisted through the primary path. -/
theorem C2_witness :
    (downloadPhoto false
      (.response ⟨200, "image/png", List.replicate 1500 7⟩) .exn).fileWritten = true :=
  (C2_validity_by_path.1 ⟨200, "image/png", List.replicate 1500 7⟩ .exn).mpr
    ⟨rfl, by decide, by decide⟩

/-!
### C8 — when the error counter is incremented
-/

/-- C8, counterexample.  When the primary strategy raises and the fallback
then succeeds (1001 bytes: the file is written and `total_imagenes`
incremented), `errores` is still incremented by 1 (the unconditional
`errores += 1` at line 300): the claim that a link for which either strategy
succeeds contributes no increment to the error counter is false. -/
theorem C8_counterexample :
    (downloadPhoto false .exn (.bytes (List.replicate 1001 0))).fileWritten = true ∧
    (downloadPhoto false .exn (.bytes (List.replicate 1001 0))).imagenesInc = 1 ∧
    (downloadPhoto false .exn (.bytes (List.replicate 1001 0))).erroresInc = 1 := by
  refine ⟨?_, ?_, ?_⟩ <;> decide

/-- C8, amended: the download block increments `errores` exactly when the
primary strategy raises an exception — regardless of whether the fallback
then succeeds — and never when the primary returns a response, even an
invalid one; and the destination file is written exactly when either the
primary response passes the full validity check or (the primary having
raised) the fallback returns a sufficiently large byte array, so when both
strategies fail the destination is left unwritten. -/
theorem C8_error_counter_semantics :
    (∀ (r : HttpResponse) (fb : FallbackResult),
        (downloadPhoto false (.response r) fb).erroresInc = 0) ∧
    (∀ fb : FallbackResult, (downloadPhoto false .exn fb).erroresInc = 1) ∧
    (∀ (p : PrimaryResult) (fb : FallbackResult),
        (downloadPhoto false p fb).fileWritten = true ↔
          ((∃ r, p = .response r ∧ r.status = 200 ∧
              strStartsWith r.contentType "image/" = true ∧ validBytes r.body = true) ∨
           (∃ b, p = .exn ∧ fb = .bytes b ∧ validBytes b = true))) := by
  refine ⟨?_, ?_, ?_⟩
  · intro r fb
    simp only [downloadPhoto]
    split_ifs <;> rfl
  · intro fb
    cases fb <;> simp only [downloadPhoto] <;> split_ifs <;> simp_all
  · intro p fb
    cases p <;> cases fb <;> simp only [downloadPhoto] <;> split_ifs <;>
      simp_all

/-- C8, instantiated: an invalid 404 response increments nothing, while a
raising primary increments `errores` by one even with no usable fallback. -/
theorem C8_witness :
    (downloadPhoto false (.response ⟨404, "text/html", []⟩) .exn).erroresInc = 0 ∧
    (downloadPhoto false .exn .exn).erroresInc = 1 :=
  ⟨C8_error_counter_semantics.1 ⟨404, "text/html", []⟩ .exn,
   C8_error_counter_semantics.2.1 .exn⟩

/-!
### C6 — the metadata sidecar is written iff a media element was found
-/

/-- C6: for a processed candidate link (photo or video alike), the JSON
metadata sidecar is written exactly when navigation succeeded and the
selector chain located a media element — independently of the src's
validity, of whether the destination already existed, and of the outcome of
the download strategies; and it is never written when the chain exhausted
without a match. -/
theorem C6_sidecar_iff_media_found (ep : PhotoEnv) (ev : VideoEnv) :
    ((processPhotoLink ep).sidecarWritten = true ↔
      ep.navOk = true ∧ ep.media ≠ none) ∧
    ((processVideoLink ev).sidecarWritten = true ↔
      ev.navOk = true ∧ ev.media ≠ none) := by
  constructor
  · obtain ⟨nav, media, dest, p, fb⟩ := ep
    cases nav <;> cases media <;> simp [processPhotoLink]
  · obtain ⟨nav, media, dest, f⟩ := ev
    cases nav <;> cases media <;> simp [processVideoLink]

/-- C6, instantiated: with navigation succeeding, a media element found with
an unusable src, and both download strategies failing, the photo sidecar is
still written; with the selector chain exhausted, it is not. -/
theorem C6_witness :
    (processPhotoLink ⟨true, some none, false, .exn, .exn⟩).sidecarWritten = true ∧
    (processPhotoLink ⟨true, none, false, .exn, .exn⟩).sidecarWritten = false ∧
    (processVideoLink ⟨true, some none, false, .exn⟩).sidecarWritten = true := by
  refine ⟨?_, ?_, ?_⟩
  · exact (C6_sidecar_iff_media_found ⟨true, some none, false, .exn, .exn⟩
      ⟨true, some none, false, .exn⟩).1.mpr ⟨rfl, by decide⟩
  · decide
  · exact (C6_sidecar_iff_media_found ⟨true, some none, false, .exn, .exn⟩
      ⟨true, some none, false, .exn⟩).2.mpr ⟨rfl, by decide⟩

/-!
### C3 — monotonicity of the two loop counters
-/

/-- C3, counterexample.  In a pass whose first iteration samples an
unchanged height (streak 1) and whose second samples a grown height, the
scroll-attempts counter decreases from 1 back to 0 between two consecutive
iterations of a still-running loop: the claim that it never decreases (only
increases) is false — height growth resets it. -/
theorem C3_counterexample :
    contLoop (stateAt trGrowAtTwo 0) = true ∧
    contLoop (stateAt trGrowAtTwo 1) = true ∧
    (stateAt trGrowAtTwo 1).scrollTries = 1 ∧
    (stateAt trGrowAtTwo 2).scrollTries = 0 := by
  decide

/-- C3, amended: across one loop iteration, `scroll_tries` increases by one
when the sampled height is unchanged and is reset to 0 when it differs
(height growth), and `no_new_content_count` increases by one when no new
links were found and is reset to 0 when some were: neither counter ever
decreases except through its reset condition, and the two reset conditions
are independent. -/
theorem C3_counters_reset_semantics (s : ScrollState) (hgt : Nat) (links : Bool) :
    (hgt = s.lastHeight → (scrollStep s hgt links).scrollTries = s.scrollTries + 1) ∧
    (hgt ≠ s.lastHeight → (scrollStep s hgt links).scrollTries = 0) ∧
    (links = false → (scrollStep s hgt links).noNewContentCount = s.noNewContentCount + 1) ∧
    (links = true → (scrollStep s hgt links).noNewContentCount = 0) := by
  refine ⟨?_, ?_, ?_, ?_⟩ <;> intro h <;> simp [scrollStep, h]

/-- C3, instantiated at concrete states. -/
theorem C3_witness :
    (scrollStep ⟨4, 2, 3⟩ 4 false).scrollTries = 3 ∧
    (scrollStep ⟨4, 2, 3⟩ 9 false).scrollTries = 0 ∧
    (scrollStep ⟨4, 2, 3⟩ 4 false).noNewContentCount = 4 ∧
    (scrollStep ⟨4, 2, 3⟩ 4 true).noNewContentCount = 0 :=
  ⟨(C3_counters_reset_semantics ⟨4, 2, 3⟩ 4 false).1 rfl,
   (C3_counters_reset_semantics ⟨4, 2, 3⟩ 9 false).2.1 (by decide),
   (C3_counters_reset_semantics ⟨4, 2, 3⟩ 4 false).2.2.1 rfl,
   (C3_counters_reset_semantics ⟨4, 2, 3⟩ 4 true).2.2.2 rfl⟩

/-!
### C4 — termination of a scroll pass
-/

theorem stateAt_lastHeight (tr : Nat → Nat × Bool) (n : Nat) :
    (stateAt tr (n + 1)).lastHeight = (tr n).1 := rfl

theorem scrollTries_step_const (tr : Nat → Nat × Bool) (hgt : Nat)
    (hc : ∀ n, (tr n).1 = hgt) (m : Nat) :
    (stateAt tr (m + 2)).scrollTries = (stateAt tr (m + 1)).scrollTries + 1 := by
  have h1 : (stateAt tr (m + 1)).lastHeight = hgt := by
    rw [stateAt_lastHeight]; exact hc m
  show (scrollStep (stateAt tr (m + 1)) (tr (m + 1)).1 (tr (m + 1)).2).scrollTries = _
  simp [scrollStep, hc (m + 1), h1]

theorem scrollTries_lower (tr : Nat → Nat × Bool) (hgt : Nat)
    (hc : ∀ n, (tr n).1 = hgt) : ∀ m, m ≤ (stateAt tr (m + 1)).scrollTries
  | 0 => Nat.zero_le _
  | m + 1 => by
    rw [scrollTries_step_const tr hgt hc m]
    exact Nat.succ_le_succ (scrollTries_lower tr hgt hc m)

theorem stateAt_zero_height (tr : Nat → Nat × Bool) (hc : ∀ n, (tr n).1 = 0) :
    ∀ n, (stateAt tr n).lastHeight = 0 ∧ (stateAt tr n).scrollTries = n
  | 0 => ⟨rfl, rfl⟩
  | n + 1 => by
    obtain ⟨hl, ht⟩ := stateAt_zero_height tr hc n
    refine ⟨by rw [stateAt_lastHeight]; exact hc n, ?_⟩
    show (scrollStep (stateAt tr n) (tr n).1 (tr n).2).scrollTries = n + 1
    simp [scrollStep, hc n, hl, ht]

theorem noNewContent_lower (tr : Nat → Nat × Bool) (k : Nat)
    (hk : ∀ n, k ≤ n → (tr n).2 = false) :
    ∀ j, j ≤ (stateAt tr (k + j)).noNewContentCount
  | 0 => Nat.zero_le _
  | j + 1 => by
    have hfalse : (tr (k + j)).2 = false := hk (k + j) (Nat.le_add_right k j)
    have ih := noNewContent_lower tr k hk j
    show j + 1 ≤
      (scrollStep (stateAt tr (k + j)) (tr (k + j)).1 (tr (k + j)).2).noNewContentCount
    simp [scrollStep, hfalse]
    omega

theorem contLoop_false_of_tries (s : ScrollState) (h : 30 ≤ s.scrollTries) :
    contLoop s = false := by
  unfold contLoop maxScrollTries
  rw [decide_eq_false (show ¬ s.scrollTries < 30 by omega)]
  rfl

theorem contLoop_false_of_noNewContent (s : ScrollState)
    (h : 8 ≤ s.noNewContentCount) : contLoop s = false := by
  unfold contLoop maxNoNewContent
  rw [decide_eq_false (show ¬ s.noNewContentCount < 8 by omega)]
  simp

/-- C4, counterexample.  A trace whose sampled document height never changes
(constantly 5) but which keeps finding new links runs the loop body a 31st
time: the guard is still true at every state reachable within 30 iterations,
because the very first comparison against the initial `last_height = 0`
counts as growth and resets the streak.  The claim that such a pass halts
within `maxScrollAttempts` (30) iterations is therefore false. -/
theorem C4_counterexample : ¬ haltsWithin trConstFive 30 := by
  rintro ⟨n, hn, hfalse⟩
  have hall : ∀ m < 31, contLoop (stateAt trConstFive m) = true := by decide
  have := hall n (by omega)
  rw [this] at hfalse
  exact Bool.noConfusion hfalse

/-- C4, amended: a pass whose sampled height is constant halts within
`maxScrollAttempts + 1 = 31` iterations (within exactly 30 when that
constant equals the initial `last_height` sentinel 0), and a pass that finds
no new links from iteration `k` on halts within `maxNoNewContent = 8`
further iterations; in particular a pass that never experiences height
change nor link discovery halts through one of the two guard conditions. -/
theorem C4_termination_bounds (tr : Nat → Nat × Bool) (hgt k : Nat) :
    ((∀ n, (tr n).1 = hgt) → haltsWithin tr 31) ∧
    ((∀ n, (tr n).1 = 0) → haltsWithin tr 30) ∧
    ((∀ n, k ≤ n → (tr n).2 = false) → haltsWithin tr (k + 8)) := by
  refine ⟨?_, ?_, ?_⟩
  · intro hc
    refine ⟨31, Nat.le_refl _, contLoop_false_of_tries _ ?_⟩
    exact scrollTries_lower tr hgt hc 30
  · intro hc
    refine ⟨30, Nat.le_refl _, contLoop_false_of_tries _ ?_⟩
    rw [(stateAt_zero_height tr hc 30).2]
  · intro hk
    exact ⟨k + 8, Nat.le_refl _,
      contLoop_false_of_noNewContent _ (noNewContent_lower tr k hk 8)⟩

/-- C4, instantiated on the all-zero-height, no-links trace. -/
theorem C4_witness :
    haltsWithin (fun _ => (0, false)) 31 ∧
    haltsWithin (fun _ => (0, false)) 30 ∧
    haltsWithin (fun _ => (0, false)) (0 + 8) :=
  ⟨(C4_termination_bounds (fun _ => (0, false)) 0 0).1 (fun _ => rfl),
   (C4_termination_bounds (fun _ => (0, false)) 0 0).2.1 (fun _ => rfl),
   (C4_termination_bounds (fun _ => (0, false)) 0 0).2.2 (fun _ _ => rfl)⟩

/-!
### C5 — the harvest step is idempotent over the seen-set
-/

theorem harvestAnchor_mono (acc : List String × List String) (a : Option String)
    (u : String) :
    (u ∈ acc.1 → u ∈ (harvestAnchor acc a).1) ∧
    (u ∈ acc.2 → u ∈ (harvestAnchor acc a).2) := by
  cases a with
  | none => exact ⟨id, id⟩
  | some h =>
    simp only [harvestAnchor]
    split_ifs <;> constructor <;> intro hu <;> simp_all

theorem foldl_harvestAnchor_mono (l : List (Option String)) :
    ∀ (acc : List String × List String) (u : String),
      (u ∈ acc.1 → u ∈ (l.foldl harvestAnchor acc).1) ∧
      (u ∈ acc.2 → u ∈ (l.foldl harvestAnchor acc).2) := by
  induction l with
  | nil => exact fun acc u => ⟨id, id⟩
  | cons a t ih =>
    intro acc u
    refine ⟨fun hu => ?_, fun hu => ?_⟩
    · exact (ih (harvestAnchor acc a) u).1 ((harvestAnchor_mono acc a u).1 hu)
    · exact (ih (harvestAnchor acc a) u).2 ((harvestAnchor_mono acc a u).2 hu)

theorem harvestAnchor_inv (seen0 : List String) (acc : List String × List String)
    (a : Option String) (hI : HInv seen0 acc) : HInv seen0 (harvestAnchor acc a) := by
  obtain ⟨hnd, hiff, hnew⟩ := hI
  cases a with
  | none => exact ⟨hnd, hiff, hnew⟩
  | some h =>
    simp only [harvestAnchor]
    split_ifs with hfb hmem
    · exact ⟨hnd, hiff, hnew⟩
    · have hh1 : h ∉ acc.1 := fun hc => hmem ((hiff h).mpr (Or.inl hc))

      have hh0 : h ∉ seen0 := fun hc => hmem ((hiff h).mpr (Or.inr hc))
      refine ⟨List.nodup_cons.mpr ⟨hh1, hnd⟩, fun u => ?_, fun u hu => ?_⟩
      · constructor
        · intro hu
          rcases List.mem_cons.mp hu with rfl | hu
          · exact Or.inl (List.mem_cons_self _ _)
          · rcases (hiff u).mp hu with h1 | h1
            · exact Or.inl (List.mem_cons_of_mem _ h1)
            · exact Or.inr h1
        · intro hu
          rcases hu with hu | hu
          · rcases List.mem_cons.mp hu with rfl | hu
            · exact List.mem_cons_self _ _
            · exact List.mem_cons_of_mem _ ((hiff u).mpr (Or.inl hu))
          · exact List.mem_cons_of_mem _ ((hiff u).mpr (Or.inr hu))
      · rcases List.mem_cons.mp hu with rfl | hu
        · exact ⟨hfb, hh0⟩
        · exact hnew u hu
    · exact ⟨hnd, hiff, hnew⟩

theorem foldl_harvestAnchor_inv (seen0 : List String) (l : List (Option String)) :
    ∀ acc : List String × List String,
      HInv seen0 acc → HInv seen0 (l.foldl harvestAnchor acc) := by
  induction l with
  | nil => exact fun acc h => h
  | cons a t ih =>
    intro acc hI
    exact ih (harvestAnchor acc a) (harvestAnchor_inv seen0 acc a hI)

theorem foldl_harvestAnchor_complete (u : String) (hf : fbLink u = true)
    (l : List (Option String)) :
    ∀ acc : List String × List String,
      some u ∈ l → u ∈ (l.foldl harvestAnchor acc).2 := by
  induction l with
  | nil => intro acc hu; cases hu
  | cons a t ih =>
    intro acc hu
    rcases List.mem_cons.mp hu with hEq | hu
    · have hmem : u ∈ (harvestAnchor acc a).2 := by
        rw [← hEq]
        show u ∈
          (if fbLink u = true then
            if u ∈ acc.2 then acc else (u :: acc.1, u :: acc.2)
          else acc).2
        rw [if_pos hf]
        by_cases hin : u ∈ acc.2
        · rw [if_pos hin]; exact hin
        · rw [if_neg hin]; exact List.mem_cons_self _ _
      exact (foldl_harvestAnchor_mono t (harvestAnchor acc a) u).2 hmem
    · exact ih (harvestAnchor acc a) hu

theorem foldl_harvestAnchor_origin (u : String) (l : List (Option String)) :
    ∀ acc : List String × List String,
      u ∈ (l.foldl harvestAnchor acc).1 →
      u ∈ acc.1 ∨ (some u ∈ l ∧ fbLink u = true) := by
  induction l with
  | nil => exact fun acc hu => Or.inl hu
  | cons a t ih =>
    intro acc hu
    rcases ih (harvestAnchor acc a) hu with h1 | h1
    · cases a with
      | none => exact Or.inl h1
      | some h =>
        revert h1
        simp only [harvestAnchor]
        split_ifs with hfb hmem
        · exact fun h1 => Or.inl h1
        · intro h1
          rcases List.mem_cons.mp h1 with rfl | h1
          · exact Or.inr ⟨List.mem_cons_self _ _, hfb⟩
          · exact Or.inl h1
        · exact fun h1 => Or.inl h1
    · exact Or.inr ⟨List.mem_cons_of_mem _ h1.1, h1.2⟩

theorem harvest_flat (dom : List (List (Option String))) (seen : List String) :
    harvest dom seen = dom.flatten.foldl harvestAnchor ([], seen) :=
  (List.foldl_flatten harvestAnchor ([], seen) dom).symm

theorem HInv_initial (seen : List String) : HInv seen ([], seen) := by
  refine ⟨List.nodup_nil, fun u => ?_, fun u hu => absurd hu (List.not_mem_nil u)⟩
  simp

/-- C5: one harvest call returns only target-domain links absent from the
session seen-set, returns them without duplicates, inserts every returned
link into the seen-set (which also keeps everything it had), and — run a
second time over the same DOM with the updated seen-set — returns the empty
incremental set.  The returned set is characterised exactly: a link is
returned iff some selector strategy produced it, it matches the target
domain, and it was not already seen. -/
theorem C5_harvest_properties (dom : List (List (Option String))) (seen : List String) :
    (harvest dom seen).1.Nodup ∧
    (∀ u : String, u ∈ (harvest dom seen).1 ↔
        (some u ∈ dom.flatten ∧ fbLink u = true ∧ u ∉ seen)) ∧
    (∀ u ∈ seen, u ∈ (harvest dom seen).2) ∧
    (∀ u ∈ (harvest dom seen).1, u ∈ (harvest dom seen).2) ∧
    (harvest dom (harvest dom seen).2).1 = [] := by
  have hInv : HInv seen (harvest dom seen) := by
    rw [harvest_flat dom seen]
    exact foldl_harvestAnchor_inv seen dom.flatten ([], seen) (HInv_initial seen)
  obtain ⟨hnd, hiff, hnew⟩ := hInv
  have hchar : ∀ u : String, u ∈ (harvest dom seen).1 ↔
      (some u ∈ dom.flatten ∧ fbLink u = true ∧ u ∉ seen) := by
    intro u
    constructor
    · intro hu
      have horig := foldl_harvestAnchor_origin u dom.flatten ([], seen)
        (by rw [harvest_flat dom seen] at hu; exact hu)
      rcases horig with h1 | h1
      · cases h1
      · exact ⟨h1.1, h1.2, (hnew u hu).2⟩
    · rintro ⟨hocc, hfb, hns⟩
      have hseen2 : u ∈ (harvest dom seen).2 := by
        rw [harvest_flat dom seen]
        exact foldl_harvestAnchor_complete u hfb dom.flatten ([], seen) hocc
      rcases (hiff u).mp hseen2 with h1 | h1
      · exact h1
      · exact absurd h1 hns
  refine ⟨hnd, hchar, ?_, ?_, ?_⟩
  · exact fun u hu => (hiff u).mpr (Or.inr hu)
  · exact fun u hu => (hiff u).mpr (Or.inl hu)
  · have hInv2 : HInv (harvest dom seen).2 (harvest dom (harvest dom seen).2) := by
      rw [harvest_flat dom (harvest dom seen).2]
      exact foldl_harvestAnchor_inv (harvest dom seen).2 dom.flatten
        ([], (harvest dom seen).2) (HInv_initial (harvest dom seen).2)
    refine List.eq_nil_iff_forall_not_mem.mpr fun u hu => ?_
    have horig := foldl_harvestAnchor_origin u dom.flatten ([], (harvest dom seen).2)
      (by rw [harvest_flat dom (harvest dom seen).2] at hu; exact hu)
    rcases horig with h1 | h1
    · cases h1
    · have hseen2 : u ∈ (harvest dom seen).2 := by
        rw [harvest_flat dom seen]
        exact foldl_harvestAnchor_complete u h1.2 dom.flatten ([], seen) h1.1
      exact (hInv2.2.2 u hu).2 hseen2

/-- C5, instantiated on a DOM where two strategies return overlapping and
duplicate facebook URLs, a foreign-domain URL and a null href, against a
seen-set already containing one of them. -/
theorem C5_witness :
    (harvest
        [[some "https://www.facebook.com/p1", none, some "https://other.example/p2",
          some "https://www.facebook.com/p1"],
         [some "https://www.facebook.com/p1", some "https://www.facebook.com/p3"]]
        ["https://www.facebook.com/p3"]).1.Nodup ∧
    ("https://www.facebook.com/p1" ∈
      (harvest
        [[some "https://www.facebook.com/p1", none, some "https://other.example/p2",
          some "https://www.facebook.com/p1"],
         [some "https://www.facebook.com/p1", some "https://www.facebook.com/p3"]]
        ["https://www.facebook.com/p3"]).1) ∧
    (harvest
        [[some "https://www.facebook.com/p1", none, some "https://other.example/p2",
          some "https://www.facebook.com/p1"],
         [some "https://www.facebook.com/p1", some "https://www.facebook.com/p3"]]
        (harvest
          [[some "https://www.facebook.com/p1", none, some "https://other.example/p2",
            some "https://www.facebook.com/p1"],
           [some "https://www.facebook.com/p1", some "https://www.facebook.com/p3"]]
          ["https://www.facebook.com/p3"]).2).1 = [] := by
  refine ⟨(C5_harvest_properties _ _).1, ?_, (C5_harvest_properties _ _).2.2.2.2⟩
  exact ((C5_harvest_properties _ _).2.1 _).mpr (by decide)

/-!
### C7 — distinctness of photo identifiers
-/

theorem sanitize_append (a b : List Char) :
    sanitize_filename (a ++ b) = sanitize_filename a ++ sanitize_filename b :=
  List.map_append _ a b

theorem sanitize_of_kept (s : List Char) (h : ∀ c ∈ s, keepChar c = true) :
    sanitize_filename s = s := by
  unfold sanitize_filename
  have hcongr : ∀ c ∈ s, (if keepChar c then c else '_') = c := by
    intro c hc
    rw [h c hc]
    rfl
  rw [List.map_congr_left hcongr]
  exact List.map_id' s

/-- C7, counterexample.  The URLs `.../photo/?fbid=123&set=a!b` and
`.../photo/?fbid=123&set=a(b` carry the same `fbid` and different `set`
query parameters, yet `get_photo_id_from_url` maps both to the same
identifier `photo_123_a_b`: the sanitizer replaces both `!` and `(` by `_`,
so the claim that such a pair always receives two different ids is false. -/
theorem C7_counterexample :
    photoParam urlBangSet ("fbid".toList) = photoParam urlParenSet ("fbid".toList) ∧
    photoParam urlBangSet ("set".toList) ≠ photoParam urlParenSet ("set".toList) ∧
    get_photo_id_from_url urlBangSet = get_photo_id_from_url urlParenSet := by
  refine ⟨by decide, by decide, by decide⟩

/-- C7, amended: two photo URLs with the same `fbid` parameter and different
`set` parameters receive different ids whenever the two `set` values consist
only of characters the sanitizer preserves (word characters, `-`, `_`, `.`,
space); `set` values differing only in sanitized-away characters may
collide. -/
theorem C7_distinct_ids_for_kept_set_values (u1 u2 : List Char)
    (hfb : photoParam u1 ("fbid".toList) = photoParam u2 ("fbid".toList))
    (h1 : ∀ c ∈ photoParam u1 ("set".toList), keepChar c = true)
    (h2 : ∀ c ∈ photoParam u2 ("set".toList), keepChar c = true)
    (hs : photoParam u1 ("set".toList) ≠ photoParam u2 ("set".toList)) :
    get_photo_id_from_url u1 ≠ get_photo_id_from_url u2 := by
  intro he
  apply hs
  unfold get_photo_id_from_url at he
  simp only [sanitize_append] at he
  rw [hfb, sanitize_of_kept _ h1, sanitize_of_kept _ h2] at he
  exact List.append_cancel_left he

/-- C7, instantiated: `set=aa` versus `set=bb` under the same `fbid=9` yield
the (different) ids `photo_9_aa` and `photo_9_bb`. -/
theorem C7_witness :
    photoParam urlSetAA ("fbid".toList) = photoParam urlSetBB ("fbid".toList) ∧
    photoParam urlSetAA ("set".toList) ≠ photoParam urlSetBB ("set".toList) ∧
    get_photo_id_from_url urlSetAA ≠ get_photo_id_from_url urlSetBB :=
  ⟨by decide, by decide,
   C7_distinct_ids_for_kept_set_values urlSetAA urlSetBB
     (by decide) (by decide) (by decide) (by decide)⟩

/-!
### C9 — the item cap is only consulted between scroll iterations
-/

theorem addProcessed_self (processed : List String) (u : String) :
    u ∈ addProcessed processed u := by
  unfold addProcessed
  split_ifs with h
  · exact h
  · exact List.mem_cons_self _ _

theorem addProcessed_mono (processed : List String) (u v : String)
    (h : v ∈ processed) : v ∈ addProcessed processed u := by
  unfold addProcessed
  split_ifs
  · exact h
  · exact List.mem_cons_of_mem _ h

theorem passStep_mono (batch : List String) :
    ∀ (processed : List String) (v : String),
      v ∈ processed → v ∈ passStep processed batch := by
  induction batch with
  | nil => exact fun p v h => h
  | cons b t ih => exact fun p v h => ih (addProcessed p b) v (addProcessed_mono p b v h)

theorem passStep_mem (batch : List String) :
    ∀ (processed : List String) (u : String),
      u ∈ batch → u ∈ passStep processed batch := by
  induction batch with
  | nil => intro p u hu; cases hu
  | cons b t ih =>
    intro p u hu
    rcases List.mem_cons.mp hu with rfl | hu2
    · exact passStep_mono t (addProcessed p u) u (addProcessed_self p u)
    · exact ih (addProcessed p b) u hu2

/-- C9: the batch-processing loop applies no per-item cap check — every link
of a harvested batch ends up processed, whatever the cap and however many
links are already processed — and the cap is consulted only after the whole
batch: concretely, a pass with `max_fotos = 2` receiving a single batch of
five distinct links processes all five, strictly more than the cap. -/
theorem C9_cap_checked_between_iterations :
    (∀ (processed batch : List String) (u : String),
        u ∈ batch → u ∈ passStep processed batch) ∧
    (runPhotoPass 2 [(5, ["a", "b", "c", "d", "e"])] initialScroll []).length = 5 ∧
    2 < (runPhotoPass 2 [(5, ["a", "b", "c", "d", "e"])] initialScroll []).length := by
  exact ⟨fun p b u hu => passStep_mem b p u hu, by decide, by decide⟩

/-- C9, instantiated: a link of a concrete batch is processed even though the
processed list already exceeds the cap of 2. -/
theorem C9_witness :
    "f" ∈ passStep ["x", "y", "z"] ["f", "g"] :=
  C9_cap_checked_between_iterations.1 ["x", "y", "z"] ["f", "g"] "f"
    (List.mem_cons_self _ _)

/-!
### C10 — `safe_goto` with its default logger performs no navigation
-/

/-- C10: whatever `page.goto` would have done on each attempt, calling
`safe_goto` the way the `info` command does — with `logger` left at its
default `None` — makes every one of the three retry iterations raise
`AttributeError` at the initial `logger.info(...)` call, before the
page-load primitive is ever invoked; so `page.goto` is called zero times and
the function deterministically returns `False` after exhausting
`max_retries`. -/
theorem C10_default_logger_no_navigation (bs : Nat → GotoBehavior) :
    (∀ i, attemptGoto none (bs i) = ⟨none, 0, some .attributeError⟩) ∧
    safeGotoInfoCall bs = ⟨false, 0⟩ :=
  ⟨fun _ => rfl, rfl⟩

/-- C10, instantiated: even with every navigation attempt bound to succeed,
the `info`-style call returns `False` without a single `page.goto`. -/
theorem C10_witness :
    safeGotoInfoCall (fun _ => GotoBehavior.ok) = ⟨false, 0⟩ :=
  (C10_default_logger_no_navigation (fun _ => GotoBehavior.ok)).2

end FBDL
